import Mathlib

/-!
# Wallet connection script (`src/app.js`)

A shallow embedding of the four functions of `src/app.js`:
`waitForEthers`, `getContractInfo`, `connectMetaMask` and `callContractRead`.

The script is sequential glue around host APIs (the `ethers` library, the
injected wallet `window.ethereum`, `fetch`, `alert`, `console`, the DOM).
Every host interaction is

* recorded as an `Event` in the trace of the run, in program order, and
* answered by the environment `Env`, which fixes how each host call settles
  (returns / throws for synchronous calls, resolves / rejects / never settles
  for awaited ones).

The only program state the script owns is the global `window.__APP_CONTRACT`
(`State.slot`).  An `async` function is a function from the state before the
call to a `Run`: how its promise settles, the state afterwards, and the trace.
The unbounded recursion of `waitForEthers` is modelled with fuel (the number
of polls the observer is prepared to watch); `Outcome.pending` is a promise
that has not settled.  The `load` listener of lines 88-97 only wires a button
to `connectMetaMask` and is not modelled.
-/

namespace App

/-! ## JavaScript values -/

/-- JavaScript values as this script sees them: `undefined`, `null`, booleans,
numbers (only the test against zero is ever observed), strings, arrays, plain
records (the own enumerable keys of a data object such as a parsed JSON body or
an `Error`, first binding of a key wins) and opaque host objects (the `ethers`
namespace, the wallet, providers, signers, contract clients). -/
inductive JSVal where
  | undefined
  | null
  | bool (b : Bool)
  | num (n : Int)
  | str (s : String)
  | arr (items : List JSVal)
  | obj (fields : List (String × JSVal))
  | host (id : Nat)

namespace JSVal

/-- The test `typeof v === "undefined"`. -/
def isUndefined : JSVal → Bool
  | .undefined => true
  | _ => false

/-- The test `typeof v === "string"`. -/
def isString : JSVal → Bool
  | .str _ => true
  | _ => false

/-- The values on which a property read throws: `undefined` and `null`. -/
def isNullish : JSVal → Bool
  | .undefined => true
  | .null => true
  | _ => false

/-- JavaScript truthiness (`ToBoolean`): `undefined`, `null`, `false`, zero and
the empty string are falsy, everything else (every array, record and host
object included) is truthy. -/
def truthy : JSVal → Bool
  | .undefined => false
  | .null => false
  | .bool b => b
  | .num n => n != 0
  | .str s => s != ""
  | .arr _ => true
  | .obj _ => true
  | .host _ => true

/-- Lookup of an own key in the key/value list of a record; a missing key reads
as `undefined`. -/
def lookup : List (String × JSVal) → String → JSVal
  | [], _ => .undefined
  | (k, v) :: rest, key => if k = key then v else lookup rest key

/-- The read `v.key` of a data key on a value that is not `undefined` or `null`:
the bound value for a record, `undefined` for everything else. -/
def prop : JSVal → String → JSVal
  | .obj fields, key => lookup fields key
  | _, _ => .undefined

/-- The `TypeError` the engine throws for a property read on `undefined` or
`null`. -/
def typeError (key : String) : JSVal :=
  .obj [("name", .str "TypeError"), ("message", .str ("Cannot read properties (reading " ++ key ++ ")"))]

/-- The read `v.key` as an expression that can throw: a `TypeError` on
`undefined` and `null`, `prop` otherwise. -/
def getProp (v : JSVal) (key : String) : Except JSVal JSVal :=
  if v.isNullish then .error (typeError key) else .ok (v.prop key)

/-- The value of `a || b`. -/
def orElse (a b : JSVal) : JSVal :=
  if a.truthy then a else b

end JSVal

/-! ## Promises, events, environment -/

/-- How a promise settles: resolved with a value, rejected with a reason, or not
settled (yet). -/
inductive Outcome (α : Type) where
  | resolved (v : α)
  | rejected (e : JSVal)
  | pending

/-- The host interactions of the script, in the order they are issued.
`alert text extra` shows `text` followed by the string form of `extra`. -/
inductive Event where
  | timeout (ms : Nat)
  | fetch (path : String)
  | respJson
  | console (level : String) (msg : String) (args : List JSVal)
  | alert (text : String) (extra : Option JSVal)
  | request (method : String)
  | newWeb3Provider (ethereum : JSVal)
  | getSigner (provider : JSVal)
  | getAddress (signer : JSVal)
  | setInnerText (elementId : String) (v : JSVal)
  | newContract (address abi signer : JSVal)
  | setSlot (v : JSVal)
  | call (target : JSVal) (methodName : String) (args : List JSVal)

namespace Event

def isAlert : Event → Bool
  | .alert _ _ => true
  | _ => false

def isRequest : Event → Bool
  | .request _ => true
  | _ => false

def isFetch : Event → Bool
  | .fetch _ => true
  | _ => false

def isNewWeb3Provider : Event → Bool
  | .newWeb3Provider _ => true
  | _ => false

def isGetSigner : Event → Bool
  | .getSigner _ => true
  | _ => false

def isNewContract : Event → Bool
  | .newContract _ _ _ => true
  | _ => false

def isSetSlot : Event → Bool
  | .setSlot _ => true
  | _ => false

def isCall : Event → Bool
  | .call _ _ _ => true
  | _ => false

/-- The value stored by a write to `window.__APP_CONTRACT`. -/
def written : Event → Option JSVal
  | .setSlot v => some v
  | _ => none

end Event

/-- What `fetch('/contract-info')` does: rejects (transport failure), never
settles, or yields a response with its `ok` flag and the settlement of
`resp.json()`. -/
inductive FetchResult where
  | failed (e : JSVal)
  | hung
  | response (ok : Bool) (json : Outcome JSVal)

/-- The environment of one run: the answers of the host.
`ethersAt k` is `window.ethers` as read by the `k`-th poll (poll `0` is the
synchronous one, poll `k + 1` follows the `k + 1`-st 100 ms wait). -/
structure Env where
  ethersAt : Nat → JSVal
  ethereum : JSVal
  requestAccounts : Outcome JSVal
  newWeb3Provider : JSVal → JSVal → Except JSVal JSVal
  getSigner : JSVal → Except JSVal JSVal
  getAddress : JSVal → Outcome JSVal
  hasAddressEl : Bool
  fetchContractInfo : FetchResult
  newContract : JSVal → JSVal → JSVal → JSVal → Except JSVal JSVal
  callMethod : JSVal → String → List JSVal → Outcome JSVal

/-- The state owned by the script: the global `window.__APP_CONTRACT`. -/
structure State where
  slot : JSVal

/-- The object `{ provider, signer, address }` returned by `connectMetaMask`. -/
structure Connection where
  provider : JSVal
  signer : JSVal
  address : JSVal

/-- One call of an `async` function: how its promise settles, the state after
it, and the host interactions it issued. -/
structure Run (α : Type) where
  outcome : Outcome α
  state : State
  trace : List Event

/-- The run `r` preceded by the events `pre`. -/
def Run.after {α : Type} (pre : List Event) (r : Run α) : Run α :=
  { r with trace := pre ++ r.trace }

/-- The values written to `window.__APP_CONTRACT` during a run, in order. -/
def writes (trace : List Event) : List JSVal :=
  trace.filterMap Event.written

/-! ## The functions of `src/app.js` -/

/-- Lines 4-11.  `fuel` polls are watched, starting with poll number `k`. -/
def waitForEthers (env : Env) (s : State) : Nat → Nat → Run JSVal
  | 0, _ => ⟨.pending, s, []⟩
  | fuel + 1, k =>
    if (env.ethersAt k).isUndefined then
      (waitForEthers env s fuel (k + 1)).after [.timeout 100]
    else
      ⟨.resolved (env.ethersAt k), s, []⟩

/-- The `Error` built on line 16. -/
def fetchError : JSVal :=
  .obj [("name", .str "Error"), ("message", .str "Failed to fetch contract info")]

/-- Lines 13-22. -/
def getContractInfo (env : Env) (s : State) : Run JSVal :=
  match env.fetchContractInfo with
  | .hung => ⟨.pending, s, [.fetch "/contract-info"]⟩
  | .failed e =>
    ⟨.resolved .null, s,
      [.fetch "/contract-info", .console "warn" "Could not fetch contract info from backend:" [e]]⟩
  | .response false _ =>
    ⟨.resolved .null, s,
      [.fetch "/contract-info",
       .console "warn" "Could not fetch contract info from backend:" [fetchError]]⟩
  | .response true .pending => ⟨.pending, s, [.fetch "/contract-info", .respJson]⟩
  | .response true (.rejected e) =>
    ⟨.resolved .null, s,
      [.fetch "/contract-info", .respJson,
       .console "warn" "Could not fetch contract info from backend:" [e]]⟩
  | .response true (.resolved body) =>
    ⟨.resolved body, s, [.fetch "/contract-info", .respJson]⟩

/-- Lines 41-49: the best-effort read of the address; resolves to the value of
the local `address` after the inner `try`. -/
def readAddress (env : Env) (signer : JSVal) (s : State) : Run JSVal :=
  match env.getAddress signer with
  | .pending => ⟨.pending, s, [.getAddress signer]⟩
  | .rejected e =>
    ⟨.resolved .null, s, [.getAddress signer, .console "warn" "Could not read address:" [e]]⟩
  | .resolved address =>
    ⟨.resolved address, s,
      [.getAddress signer, .console "log" "Connected address:" [address]] ++
        (if env.hasAddressEl then [.setInnerText "wallet-address" address] else [])⟩

/-- The guard `info && info.abi && info.address` of line 53, as a truth value.
The property reads happen only on a truthy `info`, where they cannot throw. -/
def hasContractInfo (info : JSVal) : Bool :=
  info.truthy && (info.prop "abi").truthy && (info.prop "address").truthy

/-- Lines 53-63: build the contract client and store it in the slot, or warn. -/
def attachContract (env : Env) (ethers signer info : JSVal) (s : State) : Run Unit :=
  if hasContractInfo info then
    match env.newContract ethers (info.prop "address") (info.prop "abi") signer with
    | .ok contract =>
      ⟨.resolved (), { s with slot := contract },
        [.newContract (info.prop "address") (info.prop "abi") signer, .setSlot contract,
         .console "log" "Contract connected" [contract]]⟩
    | .error e =>
      ⟨.resolved (), s,
        [.newContract (info.prop "address") (info.prop "abi") signer,
         .console "warn" "Failed to connect to contract with provided ABI/address" [e]]⟩
  else
    ⟨.resolved (), s,
      [.console "warn"
        "No contract info available from backend. Deploy contract or provide ABI/address in contract-info.json"
        []]⟩

/-- Lines 40-65: everything after the signer has been obtained. -/
def connectWithSigner (env : Env) (ethers provider signer : JSVal) (s : State) :
    Run Connection :=
  let a := readAddress env signer s
  match a.outcome with
  | .pending => ⟨.pending, a.state, a.trace⟩
  | .rejected e => ⟨.rejected e, a.state, a.trace⟩
  | .resolved address =>
    let i := getContractInfo env a.state
    match i.outcome with
    | .pending => ⟨.pending, i.state, a.trace ++ i.trace⟩
    | .rejected e => ⟨.rejected e, i.state, a.trace ++ i.trace⟩
    | .resolved info =>
      let c := attachContract env ethers signer info i.state
      match c.outcome with
      | .pending => ⟨.pending, c.state, a.trace ++ i.trace ++ c.trace⟩
      | .rejected e => ⟨.rejected e, c.state, a.trace ++ i.trace ++ c.trace⟩
      | .resolved _ =>
        ⟨.resolved ⟨provider, signer, address⟩, c.state, a.trace ++ i.trace ++ c.trace⟩

/-- Lines 33-65: the body of the outer `try`; a rejected run is an exception
that reaches the `catch` of line 66. -/
def connectTry (env : Env) (ethers : JSVal) (s : State) : Run Connection :=
  match env.requestAccounts with
  | .pending => ⟨.pending, s, [.request "eth_requestAccounts"]⟩
  | .rejected e => ⟨.rejected e, s, [.request "eth_requestAccounts"]⟩
  | .resolved _ =>
    match env.newWeb3Provider ethers env.ethereum with
    | .error e =>
      ⟨.rejected e, s, [.request "eth_requestAccounts", .newWeb3Provider env.ethereum]⟩
    | .ok provider =>
      match env.getSigner provider with
      | .error e =>
        ⟨.rejected e, s,
          [.request "eth_requestAccounts", .newWeb3Provider env.ethereum, .getSigner provider]⟩
      | .ok signer =>
        (connectWithSigner env ethers provider signer s).after
          [.request "eth_requestAccounts", .newWeb3Provider env.ethereum, .getSigner provider]

/-- Lines 66-70: the `catch` handler, run after the events `pre` of the `try`
body.  The read `err.message` on line 68 is evaluated before `alert` is called
and itself throws when `err` is `undefined` or `null`. -/
def connectCatch (err : JSVal) (s : State) (pre : List Event) : Run (Option Connection) :=
  match err.getProp "message" with
  | .error typeErr =>
    ⟨.rejected typeErr, s, pre ++ [.console "error" "MetaMask connection failed:" [err]]⟩
  | .ok message =>
    ⟨.rejected err, s,
      pre ++ [.console "error" "MetaMask connection failed:" [err],
              .alert "MetaMask connection failed: " (some (message.orElse err))]⟩

/-- Lines 24-71.  `none` is the `undefined` of the bare `return` on line 29. -/
def connectMetaMask (env : Env) (fuel : Nat) (s : State) : Run (Option Connection) :=
  let w := waitForEthers env s fuel 0
  match w.outcome with
  | .pending => ⟨.pending, w.state, w.trace⟩
  | .rejected e => ⟨.rejected e, w.state, w.trace⟩
  | .resolved ethers =>
    if env.ethereum.isUndefined then
      ⟨.resolved none, w.state,
        w.trace ++ [.alert "MetaMask not detected. Please install MetaMask and refresh." none]⟩
    else
      let r := connectTry env ethers w.state
      match r.outcome with
      | .resolved c => ⟨.resolved (some c), r.state, w.trace ++ r.trace⟩
      | .pending => ⟨.pending, r.state, w.trace ++ r.trace⟩
      | .rejected err => connectCatch err r.state (w.trace ++ r.trace)

/-- Lines 74-85.  `callMethod c m args` is the settlement of
`await c[m](...args)`, a missing method included (the call expression throws). -/
def callContractRead (env : Env) (s : State) (methodName : String) (args : List JSVal) :
    Run JSVal :=
  if !s.slot.truthy then
    ⟨.resolved .null, s,
      [.console "warn" "Contract not connected. Call connectMetaMask() first." []]⟩
  else
    match env.callMethod s.slot methodName args with
    | .resolved v => ⟨.resolved v, s, [.call s.slot methodName args]⟩
    | .rejected e =>
      ⟨.rejected e, s, [.call s.slot methodName args, .console "error" "Contract call failed" [e]]⟩
    | .pending => ⟨.pending, s, [.call s.slot methodName args]⟩

/-! ## Sample environments and states -/

/-- A page on which `ethers` is loaded from the start, a wallet is injected,
the user approves the account request, and the backend serves
`{address: "0xabc", abi: [{name: "getChain"}]}`. -/
def sampleEnv : Env where
  ethersAt := fun _ => .host 0
  ethereum := .host 1
  requestAccounts := .resolved (.arr [.str "0xf00"])
  newWeb3Provider := fun _ _ => .ok (.host 2)
  getSigner := fun _ => .ok (.host 3)
  getAddress := fun _ => .resolved (.str "0xf00")
  hasAddressEl := true
  fetchContractInfo :=
    .response true (.resolved (.obj [("address", .str "0xabc"),
      ("abi", .arr [.obj [("name", .str "getChain")]])]))
  newContract := fun _ _ _ _ => .ok (.host 4)
  callMethod := fun _ _ _ => .resolved (.num 7)

/-- The state of a freshly loaded page: the slot has never been written. -/
def freshState : State := ⟨.undefined⟩

/-- The state after an earlier successful connection stored client `host 9`. -/
def connectedState : State := ⟨.host 9⟩

/-- The `sampleEnv` page with `ethers` arriving only at the third poll. -/
def lateEthersEnv : Env :=
  { sampleEnv with ethersAt := fun k => if k < 2 then .undefined else .host 0 }

/-- The `sampleEnv` page without an injected wallet. -/
def noWalletEnv : Env :=
  { sampleEnv with ethereum := .undefined }

/-- The `sampleEnv` page with a contract client whose methods throw. -/
def failingCallEnv : Env :=
  { sampleEnv with callMethod := fun _ _ _ => .rejected (.obj [("message", .str "revert")]) }

/-- The `sampleEnv` page with a user who declines the account request; the
wallet rejects with an EIP-1193 style error object. -/
def declinedEnv : Env :=
  { sampleEnv with
      requestAccounts :=
        .rejected (.obj [("code", .num 4001), ("message", .str "User rejected the request.")]) }

/-- The `sampleEnv` page with a wallet whose account request rejects without a
reason (`Promise.reject()`). -/
def rejectUndefinedEnv : Env :=
  { sampleEnv with requestAccounts := .rejected .undefined }

/-- The `sampleEnv` page with an unreachable backend: `fetch` rejects. -/
def fetchDownEnv : Env :=
  { sampleEnv with
      fetchContractInfo := .failed (.obj [("name", .str "TypeError"), ("message", .str "Failed to fetch")]) }

/-- The `sampleEnv` page with a backend that serves a number for the address:
`{address: 42, abi: [{name: "getChain"}]}`. -/
def numericAddressEnv : Env :=
  { sampleEnv with
      fetchContractInfo :=
        .response true (.resolved (.obj [("address", .num 42),
          ("abi", .arr [.obj [("name", .str "getChain")]])])) }

/-- The `sampleEnv` page with a backend that serves an empty address:
`{address: "", abi: [{name: "getChain"}]}`. -/
def emptyAddressEnv : Env :=
  { sampleEnv with
      fetchContractInfo :=
        .response true (.resolved (.obj [("address", .str ""),
          ("abi", .arr [.obj [("name", .str "getChain")]])])) }

/-! ## Auxiliary facts -/

theorem waitForEthers_state (env : Env) (s : State) (fuel k : Nat) :
    (waitForEthers env s fuel k).state = s := by
  induction fuel generalizing k with
  | zero => rfl
  | succ fuel ih =>
    unfold waitForEthers
    split
    · simpa [Run.after] using ih (k + 1)
    · rfl

theorem waitForEthers_resolves (env : Env) (s : State) (n : Nat) :
    ∀ k fuel, (∀ j, j < n → (env.ethersAt (k + j)).isUndefined = true) →
      (env.ethersAt (k + n)).isUndefined = false → n < fuel →
      waitForEthers env s fuel k =
        ⟨.resolved (env.ethersAt (k + n)), s, List.replicate n (.timeout 100)⟩ := by
  induction n with
  | zero =>
    intro k fuel _ hn hfuel
    obtain ⟨f, rfl⟩ : ∃ f, fuel = f + 1 := ⟨fuel - 1, by omega⟩
    simp only [Nat.add_zero] at hn
    simp [waitForEthers, hn]
  | succ n ih =>
    intro k fuel hpre hn hfuel
    obtain ⟨f, rfl⟩ : ∃ f, fuel = f + 1 := ⟨fuel - 1, by omega⟩
    have h0 : (env.ethersAt k).isUndefined = true := by simpa using hpre 0 (by omega)
    have hstep := ih (k + 1) f
      (fun j hj => by
        have := hpre (j + 1) (by omega)
        rwa [show k + (j + 1) = k + 1 + j by omega] at this)
      (by rwa [show k + (n + 1) = k + 1 + n by omega] at hn)
      (by omega)
    rw [show k + (n + 1) = k + 1 + n by omega]
    simp [waitForEthers, h0, hstep, Run.after, List.replicate_succ]

theorem waitForEthers_pending (env : Env) (s : State) (fuel : Nat) :
    ∀ k, (∀ j, j < fuel → (env.ethersAt (k + j)).isUndefined = true) →
      (waitForEthers env s fuel k).outcome = .pending := by
  induction fuel with
  | zero => intro k _; rfl
  | succ fuel ih =>
    intro k hpre
    have h0 : (env.ethersAt k).isUndefined = true := by simpa using hpre 0 (by omega)
    have hstep := ih (k + 1) (fun j hj => by
      have := hpre (j + 1) (by omega)
      rwa [show k + (j + 1) = k + 1 + j by omega] at this)
    simpa [waitForEthers, h0, Run.after] using hstep

/-- Once `ethers` shows up at poll `n`, a run watched for more than `n` polls
has the library in hand after `n` waits. -/
theorem waitForEthers_ready (env : Env) (s : State) (n fuel : Nat)
    (hpre : ∀ k, k < n → (env.ethersAt k).isUndefined = true)
    (hn : (env.ethersAt n).isUndefined = false) (hfuel : n < fuel) :
    waitForEthers env s fuel 0 =
      ⟨.resolved (env.ethersAt n), s, List.replicate n (.timeout 100)⟩ := by
  have := waitForEthers_resolves env s n 0 fuel (by simpa using hpre) (by simpa using hn) hfuel
  simpa using this

theorem countP_replicate_timeout (p : Event → Bool) (hp : p (.timeout 100) = false) (n : Nat) :
    (List.replicate n (Event.timeout 100)).countP p = 0 := by
  induction n with
  | zero => rfl
  | succ n ih => simp [List.replicate_succ, List.countP_cons, hp, ih]

theorem writes_replicate_timeout (n : Nat) :
    writes (List.replicate n (Event.timeout 100)) = [] := by
  induction n with
  | zero => rfl
  | succ n ih =>
    simp only [writes] at ih
    simp [writes, List.replicate_succ, List.filterMap_cons, Event.written, ih]

theorem truthy_of_prop_truthy (v : JSVal) (key : String)
    (h : (v.prop key).truthy = true) : v.truthy = true := by
  cases v <;> simp_all [JSVal.prop, JSVal.truthy]

theorem waitForEthers_trace (env : Env) (s : State) (fuel : Nat) :
    ∀ k, ∃ m, (waitForEthers env s fuel k).trace = List.replicate m (.timeout 100) := by
  induction fuel with
  | zero => intro k; exact ⟨0, rfl⟩
  | succ fuel ih =>
    intro k
    unfold waitForEthers
    split
    · obtain ⟨m, hm⟩ := ih (k + 1)
      exact ⟨m + 1, by simp [Run.after, hm, List.replicate_succ]⟩
    · exact ⟨0, rfl⟩

theorem attachContract_spec (env : Env) (ethers signer info : JSVal) (s : State) :
    (attachContract env ethers signer info s).outcome = .resolved () ∧
    ((hasContractInfo info = true ∧
        ∃ client,
          env.newContract ethers (info.prop "address") (info.prop "abi") signer = .ok client ∧
          writes (attachContract env ethers signer info s).trace = [client] ∧
          (attachContract env ethers signer info s).state.slot = client) ∨
     ((hasContractInfo info = false ∨
        ∃ e, env.newContract ethers (info.prop "address") (info.prop "abi") signer = .error e) ∧
        writes (attachContract env ethers signer info s).trace = [] ∧
        (attachContract env ethers signer info s).state.slot = s.slot)) := by
  unfold attachContract
  by_cases hg : hasContractInfo info = true
  · cases hc : env.newContract ethers (info.prop "address") (info.prop "abi") signer <;>
      simp [hg, writes, Event.written]
  · simp [hg, writes, Event.written]

theorem readAddress_spec (env : Env) (signer : JSVal) (s : State) :
    (readAddress env signer s).state = s ∧ writes (readAddress env signer s).trace = [] := by
  unfold readAddress
  cases env.getAddress signer <;> cases env.hasAddressEl <;> simp [writes, Event.written]

theorem getContractInfo_frame (env : Env) (s : State) :
    (getContractInfo env s).state = s ∧ writes (getContractInfo env s).trace = [] := by
  unfold getContractInfo
  split <;> simp [writes, Event.written]

theorem writes_append (xs ys : List Event) : writes (xs ++ ys) = writes xs ++ writes ys := by
  simp [writes, List.filterMap_append]

theorem connectWithSigner_spec (env : Env) (ethers provider signer : JSVal) (s : State)
    (c : Connection)
    (hok : (connectWithSigner env ethers provider signer s).outcome = .resolved c) :
    c.signer = signer ∧
    ∃ info,
      (getContractInfo env s).outcome = .resolved info ∧
      (connectWithSigner env ethers provider signer s).state =
        (attachContract env ethers signer info s).state ∧
      writes (connectWithSigner env ethers provider signer s).trace =
        writes (attachContract env ethers signer info s).trace := by
  have hr := readAddress_spec env signer s
  have hi := getContractInfo_frame env s
  unfold connectWithSigner at hok ⊢
  generalize readAddress env signer s = a at hr hok ⊢
  obtain ⟨ao, as, at_⟩ := a
  simp only at hr
  obtain ⟨rfl, hat⟩ := hr
  cases ao with
  | pending => simp at hok
  | rejected e => simp at hok
  | resolved address =>
    simp only at hok ⊢
    generalize getContractInfo env as = i at hi hok ⊢
    obtain ⟨io, is, it⟩ := i
    simp only at hi
    obtain ⟨rfl, hit⟩ := hi
    cases io with
    | pending => simp at hok
    | rejected e => simp at hok
    | resolved info =>
      simp only at hok ⊢
      have hc := (attachContract_spec env ethers signer info is).1
      simp only [hc, Outcome.resolved.injEq] at hok ⊢
      subst hok
      exact ⟨rfl, info, rfl, rfl, by simp [writes_append, hat, hit]⟩

theorem connectTry_spec (env : Env) (ethers : JSVal) (s : State) (c : Connection)
    (hok : (connectTry env ethers s).outcome = .resolved c) :
    ∃ info,
      (getContractInfo env s).outcome = .resolved info ∧
      (connectTry env ethers s).state = (attachContract env ethers c.signer info s).state ∧
      writes (connectTry env ethers s).trace =
        writes (attachContract env ethers c.signer info s).trace := by
  unfold connectTry at hok ⊢
  cases hreq : env.requestAccounts with
  | pending => simp [hreq] at hok
  | rejected e => simp [hreq] at hok
  | resolved accounts =>
    cases hprov : env.newWeb3Provider ethers env.ethereum with
    | error e => simp [hreq, hprov] at hok
    | ok provider =>
      cases hsig : env.getSigner provider with
      | error e => simp [hreq, hprov, hsig] at hok
      | ok signer =>
        simp only [hreq, hprov, hsig, Run.after] at hok ⊢
        obtain ⟨hs, info, hinfo, hstate, hwrites⟩ :=
          connectWithSigner_spec env ethers provider signer s c hok
        subst hs
        exact ⟨info, hinfo, hstate, by simpa [writes_append, writes, Event.written] using hwrites⟩

theorem connectCatch_not_resolved (err : JSVal) (s : State) (pre : List Event)
    (v : Option Connection) : (connectCatch err s pre).outcome ≠ .resolved v := by
  unfold connectCatch
  split <;> simp

/-! ## Theorems -/

/-- C7: if the `ethers` binding is undefined at polls `0 .. n-1` and defined at
poll `n`, then `waitForEthers` stays unsettled as long as at most `n` polls have
been watched and, watched any longer, has resolved after exactly `n` waits of
100 ms with exactly the value read at poll `n`, leaving the state alone; and if
the binding is undefined at every poll, `waitForEthers` is unsettled (neither
resolved nor rejected) however long it is watched. -/
theorem waitForEthers_spec (env : Env) (s : State) :
    (∀ n, (∀ k, k < n → (env.ethersAt k).isUndefined = true) →
        (env.ethersAt n).isUndefined = false →
        (∀ fuel, fuel ≤ n → (waitForEthers env s fuel 0).outcome = .pending) ∧
        (∀ fuel, n < fuel →
          waitForEthers env s fuel 0 =
            ⟨.resolved (env.ethersAt n), s, List.replicate n (.timeout 100)⟩)) ∧
    ((∀ k, (env.ethersAt k).isUndefined = true) →
        ∀ fuel, (waitForEthers env s fuel 0).outcome = .pending) := by
  refine ⟨fun n hpre hn => ⟨fun fuel hfuel => ?_, fun fuel hfuel => ?_⟩, fun hall fuel => ?_⟩
  · exact waitForEthers_pending env s fuel 0 (fun j hj => by simpa using hpre j (by omega))
  · exact waitForEthers_ready env s n fuel hpre hn hfuel
  · exact waitForEthers_pending env s fuel 0 (fun j _ => by simpa using hall j)

theorem waitForEthers_spec_witness :
    waitForEthers lateEthersEnv freshState 3 0 =
      ⟨.resolved (.host 0), freshState, [.timeout 100, .timeout 100]⟩ :=
  ((waitForEthers_spec lateEthersEnv freshState).1 2
    (fun k hk => by
      have hk2 : k = 0 ∨ k = 1 := by omega
      rcases hk2 with rfl | rfl <;> rfl)
    rfl).2 3 (by decide)

/-- C6: `getContractInfo` never rejects and leaves the state alone; it issues
exactly one request, the GET to `/contract-info`; it resolves to `null` when
the transport fails, when the response is not a success, and when parsing the
body fails; and it resolves to exactly the parsed body when the response is a
success and parsing succeeds. -/
theorem getContractInfo_spec (env : Env) (s : State) :
    (∀ e, (getContractInfo env s).outcome ≠ .rejected e) ∧
    (getContractInfo env s).state = s ∧
    (getContractInfo env s).trace.filter Event.isFetch = [.fetch "/contract-info"] ∧
    (∀ e, env.fetchContractInfo = .failed e →
      (getContractInfo env s).outcome = .resolved .null) ∧
    (∀ json, env.fetchContractInfo = .response false json →
      (getContractInfo env s).outcome = .resolved .null) ∧
    (∀ e, env.fetchContractInfo = .response true (.rejected e) →
      (getContractInfo env s).outcome = .resolved .null) ∧
    (∀ body, env.fetchContractInfo = .response true (.resolved body) →
      (getContractInfo env s).outcome = .resolved body) := by
  refine ⟨?_, ?_, ?_, ?_, ?_, ?_, ?_⟩
  · intro e
    unfold getContractInfo
    split <;> simp
  · unfold getContractInfo
    split <;> rfl
  · unfold getContractInfo
    split <;> simp [Event.isFetch]
  · intro e h
    simp [getContractInfo, h]
  · intro json h
    simp [getContractInfo, h]
  · intro e h
    simp [getContractInfo, h]
  · intro body h
    simp [getContractInfo, h]

theorem getContractInfo_spec_witness :
    (getContractInfo sampleEnv freshState).outcome =
      .resolved (.obj [("address", .str "0xabc"),
        ("abi", .arr [.obj [("name", .str "getChain")]])]) :=
  (getContractInfo_spec sampleEnv freshState).2.2.2.2.2.2 _ rfl

/-- C2: for every method name and argument list, when the slot
`window.__APP_CONTRACT` is falsy (unset included), `callContractRead` resolves
to `null`, does not reject, invokes no method, and leaves the state alone. -/
theorem callContractRead_empty_slot (env : Env) (s : State) (methodName : String)
    (args : List JSVal) (hempty : s.slot.truthy = false) :
    (callContractRead env s methodName args).outcome = .resolved .null ∧
    (callContractRead env s methodName args).trace.countP Event.isCall = 0 ∧
    (callContractRead env s methodName args).state = s := by
  simp [callContractRead, hempty, Event.isCall]

theorem callContractRead_empty_slot_witness :
    (callContractRead sampleEnv freshState "getChain" [.num 1]).outcome = .resolved .null ∧
    (callContractRead sampleEnv freshState "getChain" [.num 1]).trace.countP Event.isCall = 0 ∧
    (callContractRead sampleEnv freshState "getChain" [.num 1]).state = freshState :=
  callContractRead_empty_slot sampleEnv freshState "getChain" [.num 1] rfl

/-- C8: for every method name `m` and argument list `args`, when the slot holds
a truthy handle `c`, `callContractRead` evaluates `c[m](...args)` exactly once,
with exactly `args`; it resolves to exactly the value that call resolves to,
rejects with exactly the error that call fails with, and in no case changes the
slot. -/
theorem callContractRead_populated (env : Env) (s : State) (methodName : String)
    (args : List JSVal) (hset : s.slot.truthy = true) :
    (callContractRead env s methodName args).trace.filter Event.isCall =
      [.call s.slot methodName args] ∧
    (callContractRead env s methodName args).state = s ∧
    (∀ v, env.callMethod s.slot methodName args = .resolved v →
      (callContractRead env s methodName args).outcome = .resolved v) ∧
    (∀ e, env.callMethod s.slot methodName args = .rejected e →
      (callContractRead env s methodName args).outcome = .rejected e) := by
  refine ⟨?_, ?_, ?_, ?_⟩
  · simp only [callContractRead, hset]
    cases env.callMethod s.slot methodName args <;> simp [Event.isCall]
  · simp only [callContractRead, hset]
    cases env.callMethod s.slot methodName args <;> rfl
  · intro v h
    simp [callContractRead, hset, h]
  · intro e h
    simp [callContractRead, hset, h]

theorem callContractRead_populated_witness :
    (callContractRead failingCallEnv connectedState "getChain" [.num 1]).trace.filter
        Event.isCall = [.call (.host 9) "getChain" [.num 1]] ∧
    (callContractRead failingCallEnv connectedState "getChain" [.num 1]).state =
      connectedState ∧
    (callContractRead failingCallEnv connectedState "getChain" [.num 1]).outcome =
      .rejected (.obj [("message", .str "revert")]) :=
  have h := callContractRead_populated failingCallEnv connectedState "getChain" [.num 1] rfl
  ⟨h.1, h.2.1, h.2.2.2 _ rfl⟩

/-- C1: whenever `window.ethereum` is undefined and the `ethers` binding is there
(from the start, or from some poll `n` on a run watched past it),
`connectMetaMask` shows exactly one alert, resolves to `undefined`, issues no
account request and no metadata fetch, never writes the slot, and leaves
`window.__APP_CONTRACT` equal to its value before the call. -/
theorem connectMetaMask_no_wallet (env : Env) (s : State) (n fuel : Nat)
    (hpre : ∀ k, k < n → (env.ethersAt k).isUndefined = true)
    (hn : (env.ethersAt n).isUndefined = false) (hfuel : n < fuel)
    (hnone : env.ethereum.isUndefined = true) :
    (connectMetaMask env fuel s).outcome = .resolved none ∧
    (connectMetaMask env fuel s).trace.countP Event.isAlert = 1 ∧
    (connectMetaMask env fuel s).trace.countP Event.isRequest = 0 ∧
    (connectMetaMask env fuel s).trace.countP Event.isFetch = 0 ∧
    writes (connectMetaMask env fuel s).trace = [] ∧
    (connectMetaMask env fuel s).state.slot = s.slot := by
  have hw := waitForEthers_ready env s n fuel hpre hn hfuel
  simp [connectMetaMask, hw, hnone, List.countP_append, countP_replicate_timeout,
    Event.isAlert, Event.isRequest, Event.isFetch, writes, List.filterMap_append,
    Event.written]

theorem connectMetaMask_no_wallet_witness :
    (connectMetaMask noWalletEnv 1 connectedState).outcome = .resolved none ∧
    (connectMetaMask noWalletEnv 1 connectedState).trace.countP Event.isAlert = 1 ∧
    (connectMetaMask noWalletEnv 1 connectedState).trace.countP Event.isRequest = 0 ∧
    (connectMetaMask noWalletEnv 1 connectedState).trace.countP Event.isFetch = 0 ∧
    writes (connectMetaMask noWalletEnv 1 connectedState).trace = [] ∧
    (connectMetaMask noWalletEnv 1 connectedState).state.slot = .host 9 :=
  connectMetaMask_no_wallet noWalletEnv connectedState 0 1
    (fun k hk => absurd hk (Nat.not_lt_zero k)) rfl (by decide) rfl

/-- Account-request rejection with a reason `e` other than `undefined` and
`null`, the wallet global being present: `connectMetaMask` rejects with exactly
`e`; before the rejection it has logged and shown one alert, built from
`e.message || e`; no provider or signer is constructed, no metadata fetch is
made, and the slot is neither written nor changed. -/
theorem connectMetaMask_request_rejected (env : Env) (s : State) (n fuel : Nat) (e : JSVal)
    (hpre : ∀ k, k < n → (env.ethersAt k).isUndefined = true)
    (hn : (env.ethersAt n).isUndefined = false) (hfuel : n < fuel)
    (hwallet : env.ethereum.isUndefined = false)
    (hreq : env.requestAccounts = .rejected e)
    (he : e.isNullish = false) :
    connectMetaMask env fuel s =
      ⟨.rejected e, s,
        List.replicate n (.timeout 100) ++
          [.request "eth_requestAccounts",
           .console "error" "MetaMask connection failed:" [e],
           .alert "MetaMask connection failed: " (some ((e.prop "message").orElse e))]⟩ ∧
    (connectMetaMask env fuel s).trace.countP Event.isAlert = 1 ∧
    (connectMetaMask env fuel s).trace.countP Event.isNewWeb3Provider = 0 ∧
    (connectMetaMask env fuel s).trace.countP Event.isGetSigner = 0 ∧
    (connectMetaMask env fuel s).trace.countP Event.isFetch = 0 ∧
    writes (connectMetaMask env fuel s).trace = [] ∧
    (connectMetaMask env fuel s).state.slot = s.slot := by
  have hw := waitForEthers_ready env s n fuel hpre hn hfuel
  have hrun : connectMetaMask env fuel s =
      ⟨.rejected e, s,
        List.replicate n (.timeout 100) ++
          [.request "eth_requestAccounts",
           .console "error" "MetaMask connection failed:" [e],
           .alert "MetaMask connection failed: " (some ((e.prop "message").orElse e))]⟩ := by
    simp [connectMetaMask, hw, hwallet, connectTry, hreq, connectCatch, JSVal.getProp, he]
  rw [hrun]
  simp [List.countP_append, countP_replicate_timeout, Event.isAlert,
    Event.isNewWeb3Provider, Event.isGetSigner, Event.isFetch, writes_append,
    writes_replicate_timeout, writes, Event.written]

theorem connectMetaMask_request_rejected_witness :
    connectMetaMask declinedEnv 1 connectedState =
      ⟨.rejected (.obj [("code", .num 4001), ("message", .str "User rejected the request.")]),
        connectedState,
        [.request "eth_requestAccounts",
         .console "error" "MetaMask connection failed:"
           [.obj [("code", .num 4001), ("message", .str "User rejected the request.")]],
         .alert "MetaMask connection failed: " (some (.str "User rejected the request."))]⟩ ∧
    (connectMetaMask declinedEnv 1 connectedState).trace.countP Event.isAlert = 1 ∧
    (connectMetaMask declinedEnv 1 connectedState).trace.countP Event.isNewWeb3Provider = 0 ∧
    (connectMetaMask declinedEnv 1 connectedState).trace.countP Event.isGetSigner = 0 ∧
    (connectMetaMask declinedEnv 1 connectedState).trace.countP Event.isFetch = 0 ∧
    writes (connectMetaMask declinedEnv 1 connectedState).trace = [] ∧
    (connectMetaMask declinedEnv 1 connectedState).state.slot = .host 9 :=
  connectMetaMask_request_rejected declinedEnv connectedState 0 1
    (.obj [("code", .num 4001), ("message", .str "User rejected the request.")])
    (fun k hk => absurd hk (Nat.not_lt_zero k)) rfl (by decide) rfl rfl rfl

/-- C3 (failing input): the wallet global is present and the account request
rejects with the bare value `undefined`.  The `catch` handler logs, then the
read `err.message` on line 68 throws before `alert` is called: the promise of
`connectMetaMask` rejects with that `TypeError`, not with the rejection reason,
and no alert is shown. -/
theorem connectMetaMask_request_rejected_undefined :
    rejectUndefinedEnv.ethereum.isUndefined = false ∧
    rejectUndefinedEnv.requestAccounts = .rejected .undefined ∧
    (connectMetaMask rejectUndefinedEnv 1 freshState).outcome =
      .rejected (JSVal.typeError "message") ∧
    (connectMetaMask rejectUndefinedEnv 1 freshState).outcome ≠ .rejected .undefined ∧
    (connectMetaMask rejectUndefinedEnv 1 freshState).trace.countP Event.isAlert = 0 := by
  refine ⟨rfl, rfl, rfl, ?_, rfl⟩
  show Outcome.rejected (JSVal.typeError "message") ≠ .rejected .undefined
  simp [JSVal.typeError]

/-- C4: for every successfully fetched body whose `address` and `abi` are
present (truthy), given a wallet, an approved account request, a provider and
signer that construct, an address that resolves and a `Contract` constructor
that returns `client` for exactly (`body.address`, `body.abi`, signer),
`connectMetaMask` resolves to the triple (provider, signer, address), calls the
constructor once with exactly those arguments, writes the slot once, and leaves
`client` in `window.__APP_CONTRACT`. -/
theorem connectMetaMask_attaches_contract (env : Env) (s : State) (n fuel : Nat)
    (accounts provider signer address body client : JSVal)
    (hpre : ∀ k, k < n → (env.ethersAt k).isUndefined = true)
    (hn : (env.ethersAt n).isUndefined = false) (hfuel : n < fuel)
    (hwallet : env.ethereum.isUndefined = false)
    (hreq : env.requestAccounts = .resolved accounts)
    (hprov : env.newWeb3Provider (env.ethersAt n) env.ethereum = .ok provider)
    (hsig : env.getSigner provider = .ok signer)
    (haddr : env.getAddress signer = .resolved address)
    (hfetch : env.fetchContractInfo = .response true (.resolved body))
    (ha : (body.prop "address").truthy = true)
    (habi : (body.prop "abi").truthy = true)
    (hctor : env.newContract (env.ethersAt n) (body.prop "address") (body.prop "abi") signer =
      .ok client) :
    (connectMetaMask env fuel s).outcome = .resolved (some ⟨provider, signer, address⟩) ∧
    (connectMetaMask env fuel s).trace.filter Event.isNewContract =
      [.newContract (body.prop "address") (body.prop "abi") signer] ∧
    writes (connectMetaMask env fuel s).trace = [client] ∧
    (connectMetaMask env fuel s).state.slot = client := by
  have hw := waitForEthers_ready env s n fuel hpre hn hfuel
  have hb := truthy_of_prop_truthy body "address" ha
  have hfilter : List.filter Event.isNewContract (List.replicate n (Event.timeout 100)) = [] := by
    simp [List.filter_eq_nil_iff, Event.isNewContract]
  cases hel : env.hasAddressEl <;>
    simp [connectMetaMask, hw, hwallet, connectTry, hreq, hprov, hsig, Run.after,
      connectWithSigner, readAddress, haddr, getContractInfo, hfetch, attachContract,
      hasContractInfo, ha, habi, hb, hctor, hel, writes, List.filterMap_append,
      List.filterMap_cons, Event.written, Event.isNewContract, List.filter_cons, hfilter]

theorem connectMetaMask_attaches_contract_witness :
    (connectMetaMask sampleEnv 1 freshState).outcome =
      .resolved (some ⟨.host 2, .host 3, .str "0xf00"⟩) ∧
    (connectMetaMask sampleEnv 1 freshState).trace.filter Event.isNewContract =
      [.newContract (.str "0xabc") (.arr [.obj [("name", .str "getChain")]]) (.host 3)] ∧
    writes (connectMetaMask sampleEnv 1 freshState).trace = [.host 4] ∧
    (connectMetaMask sampleEnv 1 freshState).state.slot = .host 4 :=
  connectMetaMask_attaches_contract sampleEnv freshState 0 1
    (.arr [.str "0xf00"]) (.host 2) (.host 3) (.str "0xf00")
    (.obj [("address", .str "0xabc"), ("abi", .arr [.obj [("name", .str "getChain")]])])
    (.host 4)
    (fun k hk => absurd hk (Nat.not_lt_zero k)) rfl (by decide) rfl rfl rfl rfl rfl rfl rfl rfl
    rfl

/-- C5 (counterexample): on a page whose slot already holds a client from an
earlier connection, a run with a wallet, an approved request, a resolved
address and a `fetch` that throws resolves with that address, yet afterwards
the slot is not unset: it still holds the earlier client. -/
theorem connectMetaMask_fetch_fails_slot_not_unset :
    fetchDownEnv.ethereum.isUndefined = false ∧
    fetchDownEnv.requestAccounts = .resolved (.arr [.str "0xf00"]) ∧
    fetchDownEnv.getAddress (.host 3) = .resolved (.str "0xf00") ∧
    fetchDownEnv.fetchContractInfo =
      .failed (.obj [("name", .str "TypeError"), ("message", .str "Failed to fetch")]) ∧
    (connectMetaMask fetchDownEnv 1 connectedState).outcome =
      .resolved (some ⟨.host 2, .host 3, .str "0xf00"⟩) ∧
    (connectMetaMask fetchDownEnv 1 connectedState).state.slot = .host 9 ∧
    (connectMetaMask fetchDownEnv 1 connectedState).state.slot.isUndefined = false :=
  ⟨rfl, rfl, rfl, rfl, rfl, rfl, rfl⟩

/-- C5 (amended): for every run in which the wallet is present, the account
request succeeds, provider and signer construct, the signer resolves an
address, and the backend fetch throws, `connectMetaMask` resolves (it does not
reject and shows no alert) with the triple whose address is the resolved
address, never writes the slot, and leaves `window.__APP_CONTRACT` as it was
before the call (hence unset if it was unset). -/
theorem connectMetaMask_fetch_fails (env : Env) (s : State) (n fuel : Nat)
    (accounts provider signer address e : JSVal)
    (hpre : ∀ k, k < n → (env.ethersAt k).isUndefined = true)
    (hn : (env.ethersAt n).isUndefined = false) (hfuel : n < fuel)
    (hwallet : env.ethereum.isUndefined = false)
    (hreq : env.requestAccounts = .resolved accounts)
    (hprov : env.newWeb3Provider (env.ethersAt n) env.ethereum = .ok provider)
    (hsig : env.getSigner provider = .ok signer)
    (haddr : env.getAddress signer = .resolved address)
    (hfetch : env.fetchContractInfo = .failed e) :
    (connectMetaMask env fuel s).outcome = .resolved (some ⟨provider, signer, address⟩) ∧
    (connectMetaMask env fuel s).trace.countP Event.isAlert = 0 ∧
    writes (connectMetaMask env fuel s).trace = [] ∧
    (connectMetaMask env fuel s).state.slot = s.slot ∧
    (s.slot.isUndefined = true →
      (connectMetaMask env fuel s).state.slot.isUndefined = true) := by
  have hw := waitForEthers_ready env s n fuel hpre hn hfuel
  cases hel : env.hasAddressEl <;>
    simp [connectMetaMask, hw, hwallet, connectTry, hreq, hprov, hsig, Run.after,
      connectWithSigner, readAddress, haddr, getContractInfo, hfetch, attachContract,
      hasContractInfo, JSVal.truthy, hel, writes, List.filterMap_append,
      List.filterMap_cons, Event.written, Event.isAlert, List.countP_append,
      List.countP_cons, countP_replicate_timeout]

theorem connectMetaMask_fetch_fails_witness :
    (connectMetaMask fetchDownEnv 1 freshState).outcome =
      .resolved (some ⟨.host 2, .host 3, .str "0xf00"⟩) ∧
    (connectMetaMask fetchDownEnv 1 freshState).trace.countP Event.isAlert = 0 ∧
    writes (connectMetaMask fetchDownEnv 1 freshState).trace = [] ∧
    (connectMetaMask fetchDownEnv 1 freshState).state.slot = .undefined ∧
    (JSVal.undefined.isUndefined = true →
      (connectMetaMask fetchDownEnv 1 freshState).state.slot.isUndefined = true) :=
  connectMetaMask_fetch_fails fetchDownEnv freshState 0 1
    (.arr [.str "0xf00"]) (.host 2) (.host 3) (.str "0xf00")
    (.obj [("name", .str "TypeError"), ("message", .str "Failed to fetch")])
    (fun k hk => absurd hk (Nat.not_lt_zero k)) rfl (by decide) rfl rfl rfl rfl rfl rfl

/-- C9 (counterexample): the body `{address: 42, abi: [{name: "getChain"}]}`
is fetched and parsed successfully and its address is not a string, yet
`connectMetaMask` calls the `Contract` constructor with it and stores the
resulting client in the slot, which was unset before. -/
theorem connectMetaMask_numeric_address_attaches :
    numericAddressEnv.fetchContractInfo =
      .response true (.resolved (.obj [("address", .num 42),
        ("abi", .arr [.obj [("name", .str "getChain")]])])) ∧
    (JSVal.prop (.obj [("address", .num 42),
        ("abi", .arr [.obj [("name", .str "getChain")]])]) "address").isString = false ∧
    (connectMetaMask numericAddressEnv 1 freshState).trace.filter Event.isNewContract =
      [.newContract (.num 42) (.arr [.obj [("name", .str "getChain")]]) (.host 3)] ∧
    writes (connectMetaMask numericAddressEnv 1 freshState).trace = [.host 4] ∧
    freshState.slot = .undefined ∧
    (connectMetaMask numericAddressEnv 1 freshState).state.slot = .host 4 :=
  ⟨rfl, rfl, rfl, rfl, rfl, rfl⟩

/-- C9 (amended): for every successfully fetched and parsed body that is falsy
or whose `abi` or `address` is falsy (missing, `undefined`, `null`, `false`,
zero or the empty string), on a run with a wallet, an approved request, a
provider and signer that construct and an address read that settles,
`connectMetaMask` treats it as absence of configuration: it never calls the
`Contract` constructor, never writes the slot, leaves
`window.__APP_CONTRACT` unchanged, and still resolves with the connection
triple. -/
theorem connectMetaMask_falsy_info (env : Env) (s : State) (n fuel : Nat)
    (accounts provider signer body : JSVal)
    (hpre : ∀ k, k < n → (env.ethersAt k).isUndefined = true)
    (hn : (env.ethersAt n).isUndefined = false) (hfuel : n < fuel)
    (hwallet : env.ethereum.isUndefined = false)
    (hreq : env.requestAccounts = .resolved accounts)
    (hprov : env.newWeb3Provider (env.ethersAt n) env.ethereum = .ok provider)
    (hsig : env.getSigner provider = .ok signer)
    (haddr : env.getAddress signer ≠ .pending)
    (hfetch : env.fetchContractInfo = .response true (.resolved body))
    (hfalsy : body.truthy = false ∨ (body.prop "abi").truthy = false ∨
      (body.prop "address").truthy = false) :
    (connectMetaMask env fuel s).trace.countP Event.isNewContract = 0 ∧
    writes (connectMetaMask env fuel s).trace = [] ∧
    (connectMetaMask env fuel s).state.slot = s.slot ∧
    ∃ address,
      (connectMetaMask env fuel s).outcome = .resolved (some ⟨provider, signer, address⟩) := by
  have hw := waitForEthers_ready env s n fuel hpre hn hfuel
  have hguard : hasContractInfo body = false := by
    simp only [hasContractInfo, Bool.and_eq_false_iff]
    rcases hfalsy with h | h | h
    · exact Or.inl (Or.inl h)
    · exact Or.inl (Or.inr h)
    · exact Or.inr h
  cases hel : env.hasAddressEl <;> cases hga : env.getAddress signer <;>
    first
    | exact absurd hga haddr
    | simp [connectMetaMask, hw, hwallet, connectTry, hreq, hprov, hsig, Run.after,
        connectWithSigner, readAddress, hga, getContractInfo, hfetch, attachContract,
        hguard, hel, writes, List.filterMap_append,
        List.filterMap_cons, Event.written, Event.isNewContract, List.countP_append,
        List.countP_cons, countP_replicate_timeout]

theorem connectMetaMask_falsy_info_witness :
    (connectMetaMask emptyAddressEnv 1 connectedState).trace.countP Event.isNewContract = 0 ∧
    writes (connectMetaMask emptyAddressEnv 1 connectedState).trace = [] ∧
    (connectMetaMask emptyAddressEnv 1 connectedState).state.slot = .host 9 ∧
    ∃ address,
      (connectMetaMask emptyAddressEnv 1 connectedState).outcome =
        .resolved (some ⟨.host 2, .host 3, address⟩) :=
  connectMetaMask_falsy_info emptyAddressEnv connectedState 0 1
    (.arr [.str "0xf00"]) (.host 2) (.host 3)
    (.obj [("address", .str ""), ("abi", .arr [.obj [("name", .str "getChain")]])])
    (fun k hk => absurd hk (Nat.not_lt_zero k)) rfl (by decide) rfl rfl rfl rfl
    (by simp [emptyAddressEnv, sampleEnv]) rfl (Or.inr (Or.inr rfl))

/-- C10 (counterexample): with an unreachable backend `connectMetaMask`
succeeds, resolving with the triple of provider, signer and address, but the
slot is never written during that invocation. -/
theorem connectMetaMask_succeeds_without_write :
    (connectMetaMask fetchDownEnv 1 freshState).outcome =
      .resolved (some ⟨.host 2, .host 3, .str "0xf00"⟩) ∧
    (connectMetaMask fetchDownEnv 1 freshState).trace.countP Event.isSetSlot = 0 ∧
    writes (connectMetaMask fetchDownEnv 1 freshState).trace = [] :=
  ⟨rfl, rfl, rfl⟩

/-- C10 (amended): for every invocation of `connectMetaMask` that succeeds
(resolves with a connection triple), the slot is written during that invocation
exactly when the fetched metadata passes the guard of line 53 (it is truthy and
so are its `abi` and `address`) and the `Contract` constructor returns; it is
then written once, with the client built from that metadata on the signer of
the returned triple, which is the value of `window.__APP_CONTRACT` afterwards.
When no metadata was obtained, the guard fails, or the constructor throws, the
slot is not written and keeps its value. -/
theorem connectMetaMask_slot_written (env : Env) (s : State) (fuel : Nat) (c : Connection)
    (hok : (connectMetaMask env fuel s).outcome = .resolved (some c)) :
    ∃ ethers info,
      (waitForEthers env s fuel 0).outcome = .resolved ethers ∧
      (getContractInfo env s).outcome = .resolved info ∧
      ((hasContractInfo info = true ∧
          ∃ client,
            env.newContract ethers (info.prop "address") (info.prop "abi") c.signer =
              .ok client ∧
            writes (connectMetaMask env fuel s).trace = [client] ∧
            (connectMetaMask env fuel s).state.slot = client) ∨
       ((hasContractInfo info = false ∨
          ∃ e, env.newContract ethers (info.prop "address") (info.prop "abi") c.signer =
            .error e) ∧
          writes (connectMetaMask env fuel s).trace = [] ∧
          (connectMetaMask env fuel s).state.slot = s.slot)) := by
  obtain ⟨m, hm⟩ := waitForEthers_trace env s fuel 0
  have hst := waitForEthers_state env s fuel 0
  unfold connectMetaMask at hok ⊢
  generalize waitForEthers env s fuel 0 = w at hm hst hok ⊢
  obtain ⟨wo, ws, wt⟩ := w
  simp only at hm hst
  subst hm hst
  cases wo with
  | pending => simp at hok
  | rejected e => simp at hok
  | resolved ethers =>
    refine ⟨ethers, ?_⟩
    simp only at hok ⊢
    cases hw : env.ethereum.isUndefined with
    | true => simp [hw] at hok
    | false =>
      simp only [hw, Bool.false_eq_true, if_false] at hok ⊢
      cases hr : (connectTry env ethers ws).outcome with
      | pending => simp [hr] at hok
      | rejected e =>
        simp only [hr] at hok
        exact absurd hok (connectCatch_not_resolved _ _ _ _)
      | resolved c0 =>
        simp only [hr] at hok ⊢
        simp only [Outcome.resolved.injEq, Option.some.injEq] at hok
        subst hok
        obtain ⟨info, hinfo, hstate, hwrites⟩ := connectTry_spec env ethers ws c0 hr
        refine ⟨info, trivial, hinfo, ?_⟩
        have hwr : writes (List.replicate m (Event.timeout 100) ++ (connectTry env ethers ws).trace)
            = writes (attachContract env ethers c0.signer info ws).trace := by
          rw [writes_append, writes_replicate_timeout, hwrites, List.nil_append]
        rw [hwr, hstate]
        exact (attachContract_spec env ethers c0.signer info ws).2

theorem connectMetaMask_slot_written_witness :
    ∃ ethers info,
      (waitForEthers sampleEnv freshState 1 0).outcome = .resolved ethers ∧
      (getContractInfo sampleEnv freshState).outcome = .resolved info ∧
      ((hasContractInfo info = true ∧
          ∃ client,
            sampleEnv.newContract ethers (info.prop "address") (info.prop "abi") (.host 3) =
              .ok client ∧
            writes (connectMetaMask sampleEnv 1 freshState).trace = [client] ∧
            (connectMetaMask sampleEnv 1 freshState).state.slot = client) ∨
       ((hasContractInfo info = false ∨
          ∃ e, sampleEnv.newContract ethers (info.prop "address") (info.prop "abi") (.host 3) =
            .error e) ∧
          writes (connectMetaMask sampleEnv 1 freshState).trace = [] ∧
          (connectMetaMask sampleEnv 1 freshState).state.slot = freshState.slot)) :=
  connectMetaMask_slot_written sampleEnv freshState 1 ⟨.host 2, .host 3, .str "0xf00"⟩ rfl

end App
